import Mathlib

/-!
Shallow embedding of `src/notebooks/load_cleaned_dataset.py`.

The Python module defines two functions:

* `get_cleaned_df()` — builds the dataset directory path from hard-coded
  constants, lists the directory, filters filenames ending in
  `_cleaned.csv`, reads the first match with `pd.read_csv`, applies
  `_set_types` to the resulting dataframe, and returns `df`.  The whole
  body sits in a `try`/`except Exception` block whose handler only prints
  the error; the final `return df` is outside the block, so when the
  failure happened before `df` was first assigned the return statement
  itself raises `UnboundLocalError`.
* `_set_types(df)` — five sequential in-place casts: the two datetime
  columns via `pd.to_datetime`, six columns via `astype('int64')` (one
  batch), twelve columns via `astype('float64')` (one batch), and
  `store_and_fwd_flag` via `astype('category')`.

Modelling choices: a dataframe is a `Table` (column names plus rows of
cell `Value`s, all cells read from CSV start out as raw strings); the
filesystem is an `Env` giving the result of `os.listdir` and of reading
each path; `pd.to_datetime` is modelled on the `YYYY-MM-DD HH:MM:SS`
format the dataset uses; `float64` cells are modelled as exact scaled
decimals (mantissa and number of fractional digits) since no claim
involves float arithmetic; `int64` cells as integers.  Printing is
modelled as a returned list of messages.  All string processing is done
on `String.data` character lists with structural recursion so that every
definition evaluates inside the kernel.
-/

namespace Dpp

/-- Split a character list at every occurrence of `sep`
(model of splitting used by the datetime parser). -/
def splitOnChar (sep : Char) : List Char → List (List Char)
  | [] => [[]]
  | c :: cs =>
    let rest := splitOnChar sep cs
    if c = sep then [] :: rest
    else
      match rest with
      | [] => [[c]]
      | r :: rs => (c :: r) :: rs

/-- Accumulator loop reading decimal digits; fails on a non-digit. -/
def charsToNatAux : List Char → Nat → Option Nat
  | [], acc => some acc
  | c :: cs, acc =>
    if c.isDigit then charsToNatAux cs (acc * 10 + (c.toNat - 48)) else none

/-- Parse a non-empty all-digit character list as a natural number. -/
def charsToNat? : List Char → Option Nat
  | [] => none
  | c :: cs => charsToNatAux (c :: cs) 0

/-- A parsed `datetime64[ns]` value (nanosecond resolution is irrelevant
to the claims; the dataset's values have whole seconds). -/
structure Timestamp where
  year : Nat
  month : Nat
  day : Nat
  hour : Nat
  minute : Nat
  second : Nat
deriving DecidableEq

/-- A dataframe cell.  `float64` values are exact scaled decimals
`m / 10 ^ e`; `cat` marks a value held by a `category`-dtype column. -/
inductive Value where
  | str (s : String)
  | int (n : Int)
  | float (m : Int) (e : Nat)
  | timestamp (t : Timestamp)
  | cat (s : String)
deriving DecidableEq

/-- The cell is a parsed timestamp. -/
def Value.isTimestamp : Value → Bool
  | .timestamp _ => true
  | _ => false

/-- The cell is a 64-bit-integer-typed value. -/
def Value.isInt64 : Value → Bool
  | .int _ => true
  | _ => false

/-- The cell is a 64-bit-float-typed value. -/
def Value.isFloat64 : Value → Bool
  | .float _ _ => true
  | _ => false

/-- The cell is a categorical string value. -/
def Value.isCategory : Value → Bool
  | .cat _ => true
  | _ => false

/-- Model of `pd.to_datetime` on the `YYYY-MM-DD HH:MM:SS` strings this
dataset contains. -/
def parseTimestamp (s : String) : Option Timestamp :=
  match splitOnChar ' ' s.data with
  | [d, t] =>
    match splitOnChar '-' d, splitOnChar ':' t with
    | [y, mo, da], [h, mi, se] =>
      match charsToNat? y, charsToNat? mo, charsToNat? da,
            charsToNat? h, charsToNat? mi, charsToNat? se with
      | some a, some b, some c, some d1, some e1, some f1 =>
        some ⟨a, b, c, d1, e1, f1⟩
      | _, _, _, _, _, _ => none
    | _, _ => none
  | _ => none

/-- Model of `astype('int64')` string conversion: an optionally
negated decimal integer literal. -/
def parseInt64 (s : String) : Option Int :=
  match s.data with
  | '-' :: rest => (charsToNat? rest).map (fun n => -(n : Int))
  | l => (charsToNat? l).map (fun n => (n : Int))

/-- Unsigned decimal with an optional fractional part, returned as a
scaled decimal (mantissa, number of fractional digits). -/
def parseDecimal (l : List Char) : Option (Int × Nat) :=
  match splitOnChar '.' l with
  | [a] => (charsToNat? a).map (fun n => ((n : Int), 0))
  | [a, b] =>
    match charsToNat? a, charsToNat? b with
    | some x, some y => some (((x * 10 ^ b.length + y : Nat) : Int), b.length)
    | _, _ => none
  | _ => none

/-- Model of `astype('float64')` string conversion. -/
def parseFloat64 (s : String) : Option (Int × Nat) :=
  match s.data with
  | '-' :: rest => (parseDecimal rest).map (fun p => (-p.1, p.2))
  | l => parseDecimal l

/-- `pd.to_datetime` on one cell. -/
def castDatetime : Value → Except String Value
  | .str s =>
    match parseTimestamp s with
    | some t => .ok (.timestamp t)
    | none => .error ("Unknown datetime string format: " ++ s)
  | .timestamp t => .ok (.timestamp t)
  | _ => .error "cannot convert value to datetime"

/-- `astype('int64')` on one cell. -/
def castInt64 : Value → Except String Value
  | .str s =>
    match parseInt64 s with
    | some n => .ok (.int n)
    | none => .error ("invalid literal for int64: " ++ s)
  | .int n => .ok (.int n)
  | _ => .error "cannot convert value to int64"

/-- `astype('float64')` on one cell. -/
def castFloat64 : Value → Except String Value
  | .str s =>
    match parseFloat64 s with
    | some p => .ok (.float p.1 p.2)
    | none => .error ("could not convert string to float: " ++ s)
  | .int n => .ok (.float n 0)
  | .float m e => .ok (.float m e)
  | _ => .error "cannot convert value to float64"

/-- `astype('category')` on one cell. -/
def castCategory : Value → Except String Value
  | .str s => .ok (.cat s)
  | .cat s => .ok (.cat s)
  | _ => .error "cannot convert value to category"

/-- An in-memory dataframe: ordered column names and rows of cells,
each row aligned positionally with `cols`. -/
structure Table where
  cols : List String
  rows : List (List Value)
deriving DecidableEq

/-- Cell of row `r`, column position `i`. -/
def cellAt (t : Table) (r i : Nat) : Option Value :=
  (t.rows.get? r).bind (fun row => row.get? i)

/-- Apply `p` to the cells of one row that sit under a column named in
`cs`; other cells are untouched.  Fails if the row is not aligned with
the header or any targeted cell fails to convert. -/
def castRow (cs : List String) (p : Value → Except String Value) :
    List String → List Value → Except String (List Value)
  | [], [] => .ok []
  | [], _ :: _ => .error "row longer than header"
  | _ :: _, [] => .error "row shorter than header"
  | n :: ns, v :: vs =>
    match (if cs.contains n then p v else .ok v) with
    | .error e => .error e
    | .ok v1 =>
      match castRow cs p ns vs with
      | .error e => .error e
      | .ok vs1 => .ok (v1 :: vs1)

/-- `castRow` over every row; all-or-nothing, as a pandas block
assignment either succeeds wholly or raises. -/
def castRows (cs : List String) (p : Value → Except String Value)
    (names : List String) : List (List Value) → Except String (List (List Value))
  | [] => .ok []
  | r :: rs =>
    match castRow cs p names r with
    | .error e => .error e
    | .ok r1 =>
      match castRows cs p names rs with
      | .error e => .error e
      | .ok rs1 => .ok (r1 :: rs1)

/-- Model of `df[cs] = df[cs].astype(...)` (and of the single-column
assignments): raises `KeyError` when a targeted column is absent,
otherwise converts every cell of the targeted columns. -/
def astypeCols (t : Table) (cs : List String) (p : Value → Except String Value) :
    Except String Table :=
  if cs.all (fun c => t.cols.contains c) then
    match castRows cs p t.cols t.rows with
    | .error e => .error e
    | .ok rs => .ok ⟨t.cols, rs⟩
  else .error "KeyError: column not found"

/-- `int_features` exactly as listed in `_set_types`. -/
def int_features : List String :=
  ["VendorID", "passenger_count", "RatecodeID",
   "PULocationID", "DOLocationID", "payment_type"]

/-- `float_features` exactly as listed in `_set_types`. -/
def float_features : List String :=
  ["trip_distance", "fare_amount", "extra", "mta_tax",
   "tip_amount", "tolls_amount", "improvement_surcharge",
   "total_amount", "congestion_surcharge", "Airport_fee",
   "fare_per_mile", "trip_duration"]

/-- The five cast statements of `_set_types`, in source order. -/
def type_steps : List (List String × (Value → Except String Value)) :=
  [(["tpep_pickup_datetime"], castDatetime),
   (["tpep_dropoff_datetime"], castDatetime),
   (int_features, castInt64),
   (float_features, castFloat64),
   (["store_and_fwd_flag"], castCategory)]

/-- Run cast statements in order.  On the first failure the table as
mutated so far stands (the Python casts mutate `df` in place and the
exception aborts the remaining statements), paired with the error. -/
def runSteps : List (List String × (Value → Except String Value)) →
    Table → Table × Option String
  | [], t => (t, none)
  | (cs, p) :: rest, t =>
    match astypeCols t cs p with
    | .error e => (t, some e)
    | .ok t1 => runSteps rest t1

/-- Model of `_set_types`: the table after the casts that ran, plus the
error message if one of them raised. -/
def set_types (df : Table) : Table × Option String :=
  runSteps type_steps df

/-- Net per-cell conversion performed on a column named `c` by a
successful run of the given cast statements. -/
def columnCast : List (List String × (Value → Except String Value)) →
    String → Value → Except String Value
  | [], _, v => .ok v
  | (cs, p) :: rest, c, v =>
    match (if cs.contains c then p v else .ok v) with
    | .error e => .error e
    | .ok v1 => columnCast rest c v1

/-- Model of Python `f.endswith(suffix)`: character-level suffix test. -/
def endswith (s suffix : String) : Bool :=
  List.isSuffixOf suffix.data s.data

/-- `destination` constant from `get_cleaned_df`. -/
def destination : String := "../data/raw"

/-- `dataset_name` constant from `get_cleaned_df`. -/
def dataset_name : String := "nyc-yellow-taxi-trip-records-january-2024"

/-- `os.path.join(destination, dataset_name)`. -/
def dataset_dir : String := destination ++ "/" ++ dataset_name

/-- The message of the `FileNotFoundError` raised when no filename
matches. -/
def not_found_msg : String :=
  "No cleaned dataset found. Please run the cleaning notebook first."

/-- The `print` before loading (the f-string interpolating the path). -/
def loading_msg (p : String) : String := " Loading Dataset: " ++ p

/-- The success `print` interpolating the row count (the source also
applies thousands separators, irrelevant here). -/
def success_msg (n : Nat) : String :=
  " Dataset Loaded Successfully! Total Rows: " ++ toString n

/-- The `except` handler's `print` (the source prefixes a mojibake
emoji before "Error"). -/
def error_msg (e : String) : String := "Error: " ++ e

/-- Result of a call to `get_cleaned_df`: either the `df` the final
`return df` yields, or the `UnboundLocalError` that statement raises
when `df` was never assigned. -/
inductive LoadOutcome where
  | table (t : Table)
  | unboundLocalError
deriving DecidableEq

/-- The external world as `get_cleaned_df` observes it: the outcome of
`os.listdir(dataset_dir)` and, per path, the outcome of reading the
file's raw lines (each line already split at commas). -/
structure Env where
  listing : Except String (List String)
  file : String → Except String (List (List String))

/-- Model of `pd.read_csv` on raw lines: first line is the header, the
remaining lines become string-valued rows. -/
def read_csv (lines : List (List String)) : Except String Table :=
  match lines with
  | [] => .error "No columns to parse from file"
  | header :: rest => .ok ⟨header, rest.map (fun r => r.map Value.str)⟩

/-- Candidate selection of `get_cleaned_df`: the first entry of the
directory listing whose name ends in `_cleaned.csv` (`cleaned_files[0]`). -/
def selected_file (files : List String) : Option String :=
  (files.filter (fun f => endswith f "_cleaned.csv")).head?

/-- Model of `get_cleaned_df`: returns the printed messages and the
outcome.  Every exception raised inside the `try` block is caught and
printed; the `return df` outside the block then either returns the
(possibly partially typed) `df` or raises `UnboundLocalError` when no
assignment to `df` was reached. -/
def get_cleaned_df (env : Env) : List String × LoadOutcome :=
  match env.listing with
  | .error e => ([error_msg e], .unboundLocalError)
  | .ok files =>
    match files.filter (fun f => endswith f "_cleaned.csv") with
    | [] => ([error_msg not_found_msg], .unboundLocalError)
    | f :: _ =>
      let p := dataset_dir ++ "/" ++ f
      match env.file p with
      | .error e => ([loading_msg p, error_msg e], .unboundLocalError)
      | .ok lines =>
        match read_csv lines with
        | .error e => ([loading_msg p, error_msg e], .unboundLocalError)
        | .ok df =>
          match set_types df with
          | (dfp, some e) =>
            ([loading_msg p, success_msg df.rows.length, error_msg e], .table dfp)
          | (dft, none) =>
            ([loading_msg p, success_msg df.rows.length], .table dft)

/-- Substring test used to inspect diagnostic messages. -/
def strContains (s sub : String) : Bool :=
  s.data.tails.any (fun t => sub.data.isPrefixOf t)

/-- Every column of the §3 type map, in `_set_types` order. -/
def declared_cols : List String :=
  ["tpep_pickup_datetime", "tpep_dropoff_datetime"] ++
    int_features ++ float_features ++ ["store_and_fwd_flag"]

/-- Every cell of the column named `c` (at header position `i`)
satisfies `p`. -/
def colTyped (t : Table) (c : String) (p : Value → Bool) : Prop :=
  ∀ i r v, t.cols.get? i = some c → cellAt t r i = some v → p v = true

/-! ### Transport of cells through the cast pipeline -/

theorem castRow_get? (cs : List String) (p : Value → Except String Value) :
    ∀ (names : List String) (row row1 : List Value),
      castRow cs p names row = .ok row1 → ∀ i c, names.get? i = some c →
      row1.get? i = (row.get? i).bind
        (fun v => (if cs.contains c then p v else Except.ok v).toOption) := by
  intro names
  induction names with
  | nil =>
    intro row row1 h i c hc
    simp at hc
  | cons n ns ih =>
    intro row row1 h i c hc
    cases row with
    | nil => simp [castRow] at h
    | cons v vs =>
      simp only [castRow] at h
      cases hstep : (if cs.contains n then p v else Except.ok v) with
      | error e => rw [hstep] at h; simp at h
      | ok v1 =>
        rw [hstep] at h; dsimp at h
        cases htail : castRow cs p ns vs with
        | error e => rw [htail] at h; simp at h
        | ok vs1 =>
          rw [htail] at h; dsimp at h
          injection h with h
          subst h
          cases i with
          | zero =>
            have hcn : c = n := by simpa using hc.symm
            subst hcn
            simp only [List.get?, Option.some_bind]
            rw [hstep]
            rfl
          | succ j =>
            simp only [List.get?] at hc ⊢
            exact ih vs vs1 htail j c hc

theorem castRow_length (cs : List String) (p : Value → Except String Value) :
    ∀ (names : List String) (row row1 : List Value),
      castRow cs p names row = .ok row1 → row1.length = row.length := by
  intro names
  induction names with
  | nil =>
    intro row row1 h
    cases row with
    | nil => simp only [castRow] at h; injection h with h; subst h; rfl
    | cons v vs => simp [castRow] at h
  | cons n ns ih =>
    intro row row1 h
    cases row with
    | nil => simp [castRow] at h
    | cons v vs =>
      simp only [castRow] at h
      cases hstep : (if cs.contains n then p v else Except.ok v) with
      | error e => rw [hstep] at h; simp at h
      | ok v1 =>
        rw [hstep] at h; dsimp at h
        cases htail : castRow cs p ns vs with
        | error e => rw [htail] at h; simp at h
        | ok vs1 =>
          rw [htail] at h; dsimp at h
          injection h with h
          subst h
          simp [ih vs vs1 htail]

theorem castRows_cell (cs : List String) (p : Value → Except String Value)
    (names : List String) :
    ∀ (rows rows1 : List (List Value)),
      castRows cs p names rows = .ok rows1 → ∀ i c, names.get? i = some c → ∀ r,
      (rows1.get? r).bind (fun row => row.get? i) =
        ((rows.get? r).bind (fun row => row.get? i)).bind
          (fun v => (if cs.contains c then p v else Except.ok v).toOption) := by
  intro rows
  induction rows with
  | nil =>
    intro rows1 h i c hc r
    simp only [castRows] at h
    injection h with h
    subst h
    simp
  | cons row rs ih =>
    intro rows1 h i c hc r
    simp only [castRows] at h
    cases hhead : castRow cs p names row with
    | error e => rw [hhead] at h; simp at h
    | ok row1 =>
      rw [hhead] at h; dsimp at h
      cases htail : castRows cs p names rs with
      | error e => rw [htail] at h; simp at h
      | ok rs1 =>
        rw [htail] at h; dsimp at h
        injection h with h
        subst h
        cases r with
        | zero =>
          simp only [List.get?, Option.some_bind]
          exact castRow_get? cs p names row row1 hhead i c hc
        | succ j =>
          simp only [List.get?]
          exact ih rs1 htail i c hc j

theorem castRows_length (cs : List String) (p : Value → Except String Value)
    (names : List String) :
    ∀ (rows rows1 : List (List Value)),
      castRows cs p names rows = .ok rows1 → rows1.length = rows.length := by
  intro rows
  induction rows with
  | nil =>
    intro rows1 h
    simp only [castRows] at h
    injection h with h
    subst h
    rfl
  | cons row rs ih =>
    intro rows1 h
    simp only [castRows] at h
    cases hhead : castRow cs p names row with
    | error e => rw [hhead] at h; simp at h
    | ok row1 =>
      rw [hhead] at h; dsimp at h
      cases htail : castRows cs p names rs with
      | error e => rw [htail] at h; simp at h
      | ok rs1 =>
        rw [htail] at h; dsimp at h
        injection h with h
        subst h
        simp [ih rs1 htail]

theorem astypeCols_ok (t : Table) (cs : List String)
    (p : Value → Except String Value) (t1 : Table)
    (h : astypeCols t cs p = .ok t1) :
    t1.cols = t.cols ∧ castRows cs p t.cols t.rows = .ok t1.rows := by
  unfold astypeCols at h
  split at h
  · cases hr : castRows cs p t.cols t.rows with
    | error e => rw [hr] at h; simp at h
    | ok rs =>
      rw [hr] at h; dsimp at h
      injection h with h
      subst h
      exact ⟨rfl, rfl⟩
  · exact absurd h (by simp)

theorem astypeCols_cell (t : Table) (cs : List String)
    (p : Value → Except String Value) (t1 : Table)
    (h : astypeCols t cs p = .ok t1) (i : Nat) (c : String)
    (hc : t.cols.get? i = some c) (r : Nat) :
    cellAt t1 r i = (cellAt t r i).bind
      (fun v => (if cs.contains c then p v else Except.ok v).toOption) := by
  obtain ⟨hcols, hrows⟩ := astypeCols_ok t cs p t1 h
  have := castRows_cell cs p t.cols t.rows t1.rows hrows i c hc r
  simpa [cellAt] using this

theorem astypeCols_rows_length (t : Table) (cs : List String)
    (p : Value → Except String Value) (t1 : Table)
    (h : astypeCols t cs p = .ok t1) : t1.rows.length = t.rows.length := by
  obtain ⟨hcols, hrows⟩ := astypeCols_ok t cs p t1 h
  exact castRows_length cs p t.cols t.rows t1.rows hrows

theorem runSteps_cols :
    ∀ (steps : List (List String × (Value → Except String Value))) (t t1 : Table)
      (res : Option String), runSteps steps t = (t1, res) → t1.cols = t.cols := by
  intro steps
  induction steps with
  | nil =>
    intro t t1 res h
    simp only [runSteps] at h
    injection h with h1 h2
    subst h1
    rfl
  | cons s rest ih =>
    intro t t1 res h
    obtain ⟨cs, p⟩ := s
    simp only [runSteps] at h
    cases hstep : astypeCols t cs p with
    | error e =>
      rw [hstep] at h; dsimp at h
      injection h with h1 h2
      subst h1
      rfl
    | ok t2 =>
      rw [hstep] at h; dsimp at h
      rw [ih t2 t1 res h, (astypeCols_ok t cs p t2 hstep).1]

theorem runSteps_rows_length :
    ∀ (steps : List (List String × (Value → Except String Value))) (t t1 : Table)
      (res : Option String), runSteps steps t = (t1, res) →
      t1.rows.length = t.rows.length := by
  intro steps
  induction steps with
  | nil =>
    intro t t1 res h
    simp only [runSteps] at h
    injection h with h1 h2
    subst h1
    rfl
  | cons s rest ih =>
    intro t t1 res h
    obtain ⟨cs, p⟩ := s
    simp only [runSteps] at h
    cases hstep : astypeCols t cs p with
    | error e =>
      rw [hstep] at h; dsimp at h
      injection h with h1 h2
      subst h1
      rfl
    | ok t2 =>
      rw [hstep] at h; dsimp at h
      rw [ih t2 t1 res h, astypeCols_rows_length t cs p t2 hstep]

theorem columnCast_cons_toOption (cs : List String) (p : Value → Except String Value)
    (rest : List (List String × (Value → Except String Value))) (c : String) (v : Value) :
    (columnCast ((cs, p) :: rest) c v).toOption =
      ((if cs.contains c then p v else Except.ok v).toOption).bind
        (fun v1 => (columnCast rest c v1).toOption) := by
  cases hs : (if cs.contains c then p v else Except.ok v) with
  | error e => simp only [columnCast]; rw [hs]; rfl
  | ok v1 => simp only [columnCast]; rw [hs]; rfl

theorem runSteps_cell :
    ∀ (steps : List (List String × (Value → Except String Value))) (t t1 : Table),
      runSteps steps t = (t1, none) → ∀ i c, t.cols.get? i = some c → ∀ r,
      cellAt t1 r i = (cellAt t r i).bind
        (fun v => (columnCast steps c v).toOption) := by
  intro steps
  induction steps with
  | nil =>
    intro t t1 h i c hc r
    simp only [runSteps] at h
    injection h with h1 h2
    subst h1
    simp only [columnCast]
    cases cellAt t r i <;> rfl
  | cons s rest ih =>
    intro t t1 h i c hc r
    obtain ⟨cs, p⟩ := s
    simp only [runSteps] at h
    cases hstep : astypeCols t cs p with
    | error e =>
      rw [hstep] at h; dsimp at h
      injection h with h1 h2
      exact absurd h2 (by simp)
    | ok t2 =>
      rw [hstep] at h; dsimp at h
      have hc2 : t2.cols.get? i = some c := by
        rw [(astypeCols_ok t cs p t2 hstep).1]; exact hc
      rw [ih t2 t1 h i c hc2 r, astypeCols_cell t cs p t2 hstep i c hc r,
        Option.bind_assoc]
      cases ho : cellAt t r i with
      | none => rfl
      | some v =>
        simp only [Option.some_bind]
        rw [columnCast_cons_toOption]

/-! ### Per-column characterisation of the pipeline's net conversion -/

theorem castDatetime_ok_isTimestamp (v v1 : Value)
    (h : castDatetime v = .ok v1) : v1.isTimestamp = true := by
  cases v <;> simp only [castDatetime] at h <;> try exact Except.noConfusion h
  case str s =>
    cases hp : parseTimestamp s <;> rw [hp] at h <;> simp at h
    subst h
    rfl
  case timestamp t =>
    injection h with h
    subst h
    rfl

theorem castInt64_ok_isInt64 (v v1 : Value)
    (h : castInt64 v = .ok v1) : v1.isInt64 = true := by
  cases v <;> simp only [castInt64] at h <;> try exact Except.noConfusion h
  case str s =>
    cases hp : parseInt64 s <;> rw [hp] at h <;> simp at h
    subst h
    rfl
  case int n =>
    injection h with h
    subst h
    rfl

theorem castFloat64_ok_isFloat64 (v v1 : Value)
    (h : castFloat64 v = .ok v1) : v1.isFloat64 = true := by
  cases v <;> simp only [castFloat64] at h <;> try exact Except.noConfusion h
  case str s =>
    cases hp : parseFloat64 s <;> rw [hp] at h <;> simp at h
    subst h
    rfl
  case int n =>
    injection h with h
    subst h
    rfl
  case float m e =>
    injection h with h
    subst h
    rfl

theorem castCategory_ok_isCategory (v v1 : Value)
    (h : castCategory v = .ok v1) : v1.isCategory = true := by
  cases v <;> simp only [castCategory] at h <;> try exact Except.noConfusion h
  case str s =>
    injection h with h
    subst h
    rfl
  case cat s =>
    injection h with h
    subst h
    rfl

theorem columnCast_datetime_col (c : String)
    (hc : c ∈ ["tpep_pickup_datetime", "tpep_dropoff_datetime"]) (v : Value) :
    columnCast type_steps c v = castDatetime v := by
  fin_cases hc <;>
    cases hv : castDatetime v <;>
    simp [columnCast, type_steps, int_features, float_features, hv]

theorem columnCast_int_feature (c : String) (hc : c ∈ int_features) (v : Value) :
    columnCast type_steps c v = castInt64 v := by
  fin_cases hc <;>
    cases hv : castInt64 v <;>
    simp [columnCast, type_steps, int_features, float_features, hv]

theorem columnCast_float_feature (c : String) (hc : c ∈ float_features) (v : Value) :
    columnCast type_steps c v = castFloat64 v := by
  fin_cases hc <;>
    cases hv : castFloat64 v <;>
    simp [columnCast, type_steps, int_features, float_features, hv]

theorem columnCast_flag (v : Value) :
    columnCast type_steps "store_and_fwd_flag" v = castCategory v := by
  cases hv : castCategory v <;>
    simp [columnCast, type_steps, int_features, float_features, hv]

theorem columnCast_undeclared (c : String)
    (hc : declared_cols.contains c = false) (v : Value) :
    columnCast type_steps c v = .ok v := by
  have hmem : ¬ c ∈ declared_cols := by simpa using hc
  have n1 : c ≠ "tpep_pickup_datetime" := fun h => hmem (by rw [h]; decide)
  have n2 : c ≠ "tpep_dropoff_datetime" := fun h => hmem (by rw [h]; decide)
  have n3 : ¬ c ∈ int_features := fun h => hmem (by rw [declared_cols]; simp [h])
  have n4 : ¬ c ∈ float_features := fun h => hmem (by rw [declared_cols]; simp [h])
  have n5 : c ≠ "store_and_fwd_flag" := fun h => hmem (by rw [h]; decide)
  simp [columnCast, type_steps, n1, n2, n3, n4, n5]

/-- If a successful `_set_types` run leaves a table, every cell of the
column named `c` satisfies `q` provided the net conversion of column `c`
only produces such cells. -/
theorem set_types_colTyped (df dft : Table) (h : set_types df = (dft, none))
    (c : String) (q : Value → Bool)
    (hcast : ∀ v v1, columnCast type_steps c v = .ok v1 → q v1 = true) :
    colTyped dft c q := by
  intro i r v1 hci hcell
  have hcols : dft.cols = df.cols := runSteps_cols type_steps df dft none h
  have hci2 : df.cols.get? i = some c := by rw [← hcols]; exact hci
  have hmaster := runSteps_cell type_steps df dft h i c hci2 r
  rw [hcell] at hmaster
  cases ho : cellAt df r i with
  | none => rw [ho] at hmaster; simp at hmaster
  | some v0 =>
    rw [ho] at hmaster
    simp only [Option.some_bind] at hmaster
    cases hcc : columnCast type_steps c v0 with
    | error e => rw [hcc] at hmaster; simp [Except.toOption] at hmaster
    | ok v2 =>
      rw [hcc] at hmaster
      simp only [Except.toOption] at hmaster
      injection hmaster with hm
      subst hm
      exact hcast v0 v1 hcc

/-! ### The suffix filter -/

theorem string_data_inj (s t : String) (h : s.data = t.data) : s = t := by
  cases s
  cases t
  simp_all

theorem endswith_iff (s suffix : String) :
    endswith s suffix = true ↔ ∃ p : String, s = p ++ suffix := by
  unfold endswith
  rw [List.isSuffixOf_iff_suffix]
  constructor
  · rintro ⟨t, ht⟩
    refine ⟨⟨t⟩, string_data_inj _ _ ?_⟩
    simp only [String.data_append]
    exact ht.symm
  · rintro ⟨p, hp⟩
    refine ⟨p.data, ?_⟩
    rw [hp]
    simp [String.data_append]

/-! ### Concrete sample environments -/

/-- Header of the synthetic cleaned CSV: the 21 declared columns plus an
extra column `note` not named in the type map. -/
def sample_header : List String :=
  ["VendorID", "tpep_pickup_datetime", "tpep_dropoff_datetime", "passenger_count",
   "trip_distance", "RatecodeID", "store_and_fwd_flag", "PULocationID",
   "DOLocationID", "payment_type", "fare_amount", "extra", "mta_tax",
   "tip_amount", "tolls_amount", "improvement_surcharge", "total_amount",
   "congestion_surcharge", "Airport_fee", "fare_per_mile", "trip_duration", "note"]

/-- First data line of the synthetic file. -/
def sample_row1 : List String :=
  ["1", "2024-01-05 10:15:00", "2024-01-05 10:30:00", "2",
   "3.5", "1", "N", "161",
   "237", "1", "17.5", "1.0", "0.5",
   "3.0", "0.0", "1.0", "23.0",
   "2.5", "0.0", "5.0", "15.0", "hello"]

/-- Second data line of the synthetic file. -/
def sample_row2 : List String :=
  ["2", "2024-01-05 11:00:00", "2024-01-05 11:10:00", "1",
   "1.2", "1", "Y", "100",
   "200", "2", "8.0", "0.5", "0.5",
   "0.0", "0.0", "1.0", "10.0",
   "2.5", "0.0", "6.67", "10.0", "w"]

/-- The synthetic file: header line plus two data lines. -/
def sample_lines : List (List String) := [sample_header, sample_row1, sample_row2]

/-- Name of the synthetic cleaned file. -/
def good_name : String := "yellow_tripdata_2024-01_cleaned.csv"

/-- Its full path inside the dataset directory. -/
def good_path : String := dataset_dir ++ "/" ++ good_name

/-- Environment whose directory holds the synthetic cleaned file (plus a
non-matching entry) and whose file read succeeds. -/
def env_good : Env :=
  ⟨.ok [good_name, "readme.txt"],
   fun p => if p = good_path then .ok sample_lines else .error "FileNotFoundError"⟩

/-- The parsed (untyped) table of the synthetic file. -/
def sample_df : Table :=
  ⟨sample_header, [sample_row1.map Value.str, sample_row2.map Value.str]⟩

/-- The synthetic table after a fully successful `_set_types`. -/
def sample_typed : Table := (set_types sample_df).1

/-- First data line with the unconvertible value `abc` in `fare_amount`. -/
def bad_row1 : List String :=
  ["1", "2024-01-05 10:15:00", "2024-01-05 10:30:00", "2",
   "3.5", "1", "N", "161",
   "237", "1", "abc", "1.0", "0.5",
   "3.0", "0.0", "1.0", "23.0",
   "2.5", "0.0", "5.0", "15.0", "hello"]

/-- The malformed synthetic file. -/
def bad_lines : List (List String) := [sample_header, bad_row1]

/-- Environment serving the malformed file. -/
def env_bad : Env :=
  ⟨.ok [good_name],
   fun p => if p = good_path then .ok bad_lines else .error "FileNotFoundError"⟩

/-- The parsed (untyped) malformed table. -/
def bad_df : Table := ⟨sample_header, [bad_row1.map Value.str]⟩

/-- The malformed table after `_set_types` stops at the failing float
cast: datetime and integer columns are already converted. -/
def bad_halfway : Table := (set_types bad_df).1

/-- Environment whose directory holds no `_cleaned.csv` entry. -/
def env_empty : Env :=
  ⟨.ok ["readme.txt", "yellow_tripdata_2024-01.csv"],
   fun _ => .error "FileNotFoundError"⟩

/-- Environment whose directory listing itself fails. -/
def env_err : Env :=
  ⟨.error "PermissionError", fun _ => .error "FileNotFoundError"⟩

/-- A directory listing holding two cleaned files, and the same listing
in the opposite order. -/
def listing_ab : List String := ["a_cleaned.csv", "b_cleaned.csv"]

/-- `listing_ab` reversed: the same directory contents, listed in a
different order. -/
def listing_ba : List String := ["b_cleaned.csv", "a_cleaned.csv"]

/-- Environment with the given listing (file reads all fail, which is
enough to observe which file was selected). -/
def env_of (l : List String) : Env :=
  ⟨.ok l, fun _ => .error "IOError"⟩

/-- Shared unfolding of `get_cleaned_df` up to the `_set_types` call,
given a successful listing, selection, read and parse. -/
theorem get_cleaned_df_success (env : Env) (files : List String) (f : String)
    (rest : List String) (lines : List (List String)) (df : Table)
    (h1 : env.listing = .ok files)
    (h2 : files.filter (fun g => endswith g "_cleaned.csv") = f :: rest)
    (h3 : env.file (dataset_dir ++ "/" ++ f) = .ok lines)
    (h4 : read_csv lines = .ok df) :
    get_cleaned_df env =
      (match set_types df with
        | (dfp, some e) =>
          ([loading_msg (dataset_dir ++ "/" ++ f), success_msg df.rows.length,
            error_msg e], LoadOutcome.table dfp)
        | (dft, none) =>
          ([loading_msg (dataset_dir ++ "/" ++ f), success_msg df.rows.length],
            LoadOutcome.table dft)) := by
  unfold get_cleaned_df
  rw [h1]
  dsimp only
  rw [h2]
  dsimp only
  rw [h3]
  dsimp only
  rw [h4]

/-! ### Claims -/

/-- C1 (counterexample): with `abc` in `fare_amount`, the load reports
the type-coercion failure in its printed output but still returns a
partially-typed table: the datetime and integer columns are already
converted while `fare_amount` still holds the raw string.  This refutes
the claim that a failed coercion yields no usable table. -/
theorem c1_counterexample_table_still_returned :
    get_cleaned_df env_bad =
      ([loading_msg good_path, success_msg 1,
        error_msg "could not convert string to float: abc"],
        .table bad_halfway) ∧
    cellAt bad_halfway 0 1 = some (.timestamp ⟨2024, 1, 5, 10, 15, 0⟩) ∧
    cellAt bad_halfway 0 0 = some (.int 1) ∧
    cellAt bad_halfway 0 10 = some (.str "abc") := by
  refine ⟨by decide, by decide, by decide, by decide⟩

/-- C1 (amended): when parsing succeeds but `_set_types` fails on a
value, `get_cleaned_df` prints the coercion error and returns the table
as mutated by the casts that ran before the failure, rather than no
table. -/
theorem c1_coercion_failure_reported_but_table_returned (env : Env)
    (files : List String) (f : String) (rest : List String)
    (lines : List (List String)) (df dfp : Table) (e : String)
    (h1 : env.listing = .ok files)
    (h2 : files.filter (fun g => endswith g "_cleaned.csv") = f :: rest)
    (h3 : env.file (dataset_dir ++ "/" ++ f) = .ok lines)
    (h4 : read_csv lines = .ok df)
    (h5 : set_types df = (dfp, some e)) :
    get_cleaned_df env =
      ([loading_msg (dataset_dir ++ "/" ++ f), success_msg df.rows.length,
        error_msg e], .table dfp) := by
  rw [get_cleaned_df_success env files f rest lines df h1 h2 h3 h4, h5]

/-- C1 (witness): the amended statement at the malformed sample file. -/
theorem c1_witness :
    get_cleaned_df env_bad =
      ([loading_msg good_path, success_msg 1,
        error_msg "could not convert string to float: abc"],
        .table bad_halfway) :=
  c1_coercion_failure_reported_but_table_returned env_bad [good_name] good_name
    [] bad_lines bad_df bad_halfway "could not convert string to float: abc"
    rfl (by decide) rfl rfl (by decide)

/-- C2: on a fully successful load the returned table has timestamps in
the two datetime columns, 64-bit integers in the six ID/count columns,
64-bit floats in the twelve monetary/distance/duration columns, and
categorical strings in `store_and_fwd_flag`. -/
theorem c2_declared_column_types (env : Env) (files : List String)
    (f : String) (rest : List String) (lines : List (List String))
    (df dft : Table)
    (h1 : env.listing = .ok files)
    (h2 : files.filter (fun g => endswith g "_cleaned.csv") = f :: rest)
    (h3 : env.file (dataset_dir ++ "/" ++ f) = .ok lines)
    (h4 : read_csv lines = .ok df)
    (h5 : set_types df = (dft, none)) :
    get_cleaned_df env =
      ([loading_msg (dataset_dir ++ "/" ++ f), success_msg df.rows.length],
        .table dft) ∧
    colTyped dft "tpep_pickup_datetime" Value.isTimestamp ∧
    colTyped dft "tpep_dropoff_datetime" Value.isTimestamp ∧
    (∀ c, c ∈ int_features → colTyped dft c Value.isInt64) ∧
    (∀ c, c ∈ float_features → colTyped dft c Value.isFloat64) ∧
    colTyped dft "store_and_fwd_flag" Value.isCategory := by
  refine ⟨?_, ?_, ?_, ?_, ?_, ?_⟩
  · rw [get_cleaned_df_success env files f rest lines df h1 h2 h3 h4, h5]
  · refine set_types_colTyped df dft h5 _ _ (fun v v1 hcc => ?_)
    rw [columnCast_datetime_col "tpep_pickup_datetime" (by decide) v] at hcc
    exact castDatetime_ok_isTimestamp v v1 hcc
  · refine set_types_colTyped df dft h5 _ _ (fun v v1 hcc => ?_)
    rw [columnCast_datetime_col "tpep_dropoff_datetime" (by decide) v] at hcc
    exact castDatetime_ok_isTimestamp v v1 hcc
  · intro c hcm
    refine set_types_colTyped df dft h5 _ _ (fun v v1 hcc => ?_)
    rw [columnCast_int_feature c hcm v] at hcc
    exact castInt64_ok_isInt64 v v1 hcc
  · intro c hcm
    refine set_types_colTyped df dft h5 _ _ (fun v v1 hcc => ?_)
    rw [columnCast_float_feature c hcm v] at hcc
    exact castFloat64_ok_isFloat64 v v1 hcc
  · refine set_types_colTyped df dft h5 _ _ (fun v v1 hcc => ?_)
    rw [columnCast_flag v] at hcc
    exact castCategory_ok_isCategory v v1 hcc

/-- C2 (witness): the type guarantee at the synthetic sample file. -/
theorem c2_witness :
    get_cleaned_df env_good =
      ([loading_msg good_path, success_msg 2], .table sample_typed) ∧
    colTyped sample_typed "tpep_pickup_datetime" Value.isTimestamp ∧
    colTyped sample_typed "tpep_dropoff_datetime" Value.isTimestamp ∧
    (∀ c, c ∈ int_features → colTyped sample_typed c Value.isInt64) ∧
    (∀ c, c ∈ float_features → colTyped sample_typed c Value.isFloat64) ∧
    colTyped sample_typed "store_and_fwd_flag" Value.isCategory :=
  c2_declared_column_types env_good [good_name, "readme.txt"] good_name []
    sample_lines sample_df sample_typed rfl (by decide) rfl rfl (by decide)

/-- C3: when no directory entry ends in `_cleaned.csv`, the
`FileNotFoundError` message is printed and no table is constructed or
returned: the call ends in the `UnboundLocalError` outcome. -/
theorem c3_no_match_no_table (env : Env) (files : List String)
    (h1 : env.listing = .ok files)
    (h2 : files.filter (fun g => endswith g "_cleaned.csv") = []) :
    get_cleaned_df env = ([error_msg not_found_msg], .unboundLocalError) := by
  unfold get_cleaned_df
  rw [h1]
  dsimp only
  rw [h2]

/-- C3 (witness): the no-match behaviour at a directory with no cleaned
file. -/
theorem c3_witness :
    get_cleaned_df env_empty = ([error_msg not_found_msg], .unboundLocalError) :=
  c3_no_match_no_table env_empty ["readme.txt", "yellow_tripdata_2024-01.csv"]
    rfl (by decide)

/-- C4 (counterexample): the "dataset not found" message contains
neither the expected suffix `_cleaned.csv` nor the expected location
(the dataset directory path or its components), refuting the claim that
both are reported. -/
theorem c4_counterexample_message_lacks_suffix_and_path :
    get_cleaned_df env_empty = ([error_msg not_found_msg], .unboundLocalError) ∧
    strContains (error_msg not_found_msg) "_cleaned.csv" = false ∧
    strContains (error_msg not_found_msg) dataset_dir = false ∧
    strContains (error_msg not_found_msg) destination = false ∧
    strContains (error_msg not_found_msg) dataset_name = false := by
  refine ⟨by decide, by decide, by decide, by decide, by decide⟩

/-- C4 (amended): on an empty candidate set the failure message names
the missing artifact ("cleaned dataset") and the remedial step (running
the cleaning notebook), but reports neither the expected filename suffix
nor the expected directory path. -/
theorem c4_message_names_artifact_not_suffix_or_path (env : Env)
    (files : List String)
    (h1 : env.listing = .ok files)
    (h2 : files.filter (fun g => endswith g "_cleaned.csv") = []) :
    get_cleaned_df env = ([error_msg not_found_msg], .unboundLocalError) ∧
    strContains (error_msg not_found_msg) "cleaned dataset" = true ∧
    strContains (error_msg not_found_msg) "cleaning notebook" = true ∧
    strContains (error_msg not_found_msg) "_cleaned.csv" = false ∧
    strContains (error_msg not_found_msg) dataset_dir = false := by
  refine ⟨?_, by decide, by decide, by decide, by decide⟩
  unfold get_cleaned_df
  rw [h1]
  dsimp only
  rw [h2]

/-- C4 (witness): the amended message-content statement at a directory
with no cleaned file. -/
theorem c4_witness :
    get_cleaned_df env_empty = ([error_msg not_found_msg], .unboundLocalError) ∧
    strContains (error_msg not_found_msg) "cleaned dataset" = true ∧
    strContains (error_msg not_found_msg) "cleaning notebook" = true ∧
    strContains (error_msg not_found_msg) "_cleaned.csv" = false ∧
    strContains (error_msg not_found_msg) dataset_dir = false :=
  c4_message_names_artifact_not_suffix_or_path env_empty
    ["readme.txt", "yellow_tripdata_2024-01.csv"] rfl (by decide)

/-- C5 (counterexample): two listings with the same directory contents
(a permutation of each other), both holding two `_cleaned.csv` files,
make `get_cleaned_df` select different files — selection depends on the
listing order, not only on the contents. -/
theorem c5_counterexample_order_changes_selection :
    List.Perm listing_ab listing_ba ∧
    selected_file listing_ab = some "a_cleaned.csv" ∧
    selected_file listing_ba = some "b_cleaned.csv" ∧
    get_cleaned_df (env_of listing_ab) ≠ get_cleaned_df (env_of listing_ba) := by
  refine ⟨by decide, by decide, by decide, by decide⟩

/-- C5 (amended): selection (and the whole call) is deterministic in
the directory *listing*: two environments with the same listing and the
same file contents produce identical results; but the listing order is
not itself determined by the directory contents. -/
theorem c5_deterministic_in_listing (e1 e2 : Env)
    (h1 : e1.listing = e2.listing) (h2 : e1.file = e2.file) :
    get_cleaned_df e1 = get_cleaned_df e2 := by
  cases e1
  cases e2
  cases h1
  cases h2
  rfl

/-- C5 (witness): determinism applied to one concrete environment. -/
theorem c5_witness :
    get_cleaned_df (env_of listing_ab) = get_cleaned_df (env_of listing_ab) :=
  c5_deterministic_in_listing (env_of listing_ab) (env_of listing_ab) rfl rfl

/-- C6: on a successful load, a parsed column whose name is not among
the twenty-one declared columns is left unaltered: the header (names
and order) is that of the parsed table and every cell of that column is
unchanged. -/
theorem c6_undeclared_columns_unaltered (env : Env) (files : List String)
    (f : String) (rest : List String) (lines : List (List String))
    (df dft : Table)
    (h1 : env.listing = .ok files)
    (h2 : files.filter (fun g => endswith g "_cleaned.csv") = f :: rest)
    (h3 : env.file (dataset_dir ++ "/" ++ f) = .ok lines)
    (h4 : read_csv lines = .ok df)
    (h5 : set_types df = (dft, none))
    (c : String) (hc : declared_cols.contains c = false) (i : Nat)
    (hci : df.cols.get? i = some c) :
    get_cleaned_df env =
      ([loading_msg (dataset_dir ++ "/" ++ f), success_msg df.rows.length],
        .table dft) ∧
    dft.cols = df.cols ∧
    (∀ r, cellAt dft r i = cellAt df r i) := by
  refine ⟨?_, runSteps_cols type_steps df dft none h5, ?_⟩
  · rw [get_cleaned_df_success env files f rest lines df h1 h2 h3 h4, h5]
  · intro r
    rw [runSteps_cell type_steps df dft h5 i c hci r]
    cases ho : cellAt df r i with
    | none => rfl
    | some v => simp [columnCast_undeclared c hc v, Except.toOption]

/-- C6 (witness): the extra `note` column of the synthetic file (header
position 21) survives the load unchanged. -/
theorem c6_witness :
    get_cleaned_df env_good =
      ([loading_msg good_path, success_msg 2], .table sample_typed) ∧
    sample_typed.cols = sample_df.cols ∧
    (∀ r, cellAt sample_typed r 21 = cellAt sample_df r 21) :=
  c6_undeclared_columns_unaltered env_good [good_name, "readme.txt"] good_name
    [] sample_lines sample_df sample_typed rfl (by decide) rfl rfl (by decide)
    "note" (by decide) 21 (by decide)

/-- C7: on a successful load the returned table has exactly one row per
input line below the header. -/
theorem c7_row_count (env : Env) (files : List String)
    (f : String) (rest : List String) (lines : List (List String))
    (df dft : Table)
    (h1 : env.listing = .ok files)
    (h2 : files.filter (fun g => endswith g "_cleaned.csv") = f :: rest)
    (h3 : env.file (dataset_dir ++ "/" ++ f) = .ok lines)
    (h4 : read_csv lines = .ok df)
    (h5 : set_types df = (dft, none)) :
    get_cleaned_df env =
      ([loading_msg (dataset_dir ++ "/" ++ f), success_msg df.rows.length],
        .table dft) ∧
    dft.rows.length + 1 = lines.length := by
  refine ⟨?_, ?_⟩
  · rw [get_cleaned_df_success env files f rest lines df h1 h2 h3 h4, h5]
  · have hlen := runSteps_rows_length type_steps df dft none h5
    cases lines with
    | nil => simp [read_csv] at h4
    | cons header rest2 =>
      simp only [read_csv] at h4
      injection h4 with h4
      rw [hlen, ← h4]
      simp

/-- C7 (witness): the synthetic file has three lines (one header, two
data lines) and the loaded table has two rows. -/
theorem c7_witness :
    get_cleaned_df env_good =
      ([loading_msg good_path, success_msg 2], .table sample_typed) ∧
    sample_typed.rows.length + 1 = sample_lines.length :=
  c7_row_count env_good [good_name, "readme.txt"] good_name []
    sample_lines sample_df sample_typed rfl (by decide) rfl rfl (by decide)

/-- C8: on a successful load, every cell of the returned table is the
corresponding parsed source cell transported through the column's
declared coercion: `pd.to_datetime` for the two datetime columns,
`astype('int64')` for the six integer columns, `astype('float64')` for
the twelve float columns, `astype('category')` for the flag column. -/
theorem c8_roundtrip (env : Env) (files : List String)
    (f : String) (rest : List String) (lines : List (List String))
    (df dft : Table) (i : Nat) (c : String) (r : Nat)
    (h1 : env.listing = .ok files)
    (h2 : files.filter (fun g => endswith g "_cleaned.csv") = f :: rest)
    (h3 : env.file (dataset_dir ++ "/" ++ f) = .ok lines)
    (h4 : read_csv lines = .ok df)
    (h5 : set_types df = (dft, none))
    (hci : df.cols.get? i = some c) :
    get_cleaned_df env =
      ([loading_msg (dataset_dir ++ "/" ++ f), success_msg df.rows.length],
        .table dft) ∧
    (c ∈ ["tpep_pickup_datetime", "tpep_dropoff_datetime"] →
      cellAt dft r i = (cellAt df r i).bind (fun v => (castDatetime v).toOption)) ∧
    (c ∈ int_features →
      cellAt dft r i = (cellAt df r i).bind (fun v => (castInt64 v).toOption)) ∧
    (c ∈ float_features →
      cellAt dft r i = (cellAt df r i).bind (fun v => (castFloat64 v).toOption)) ∧
    (c = "store_and_fwd_flag" →
      cellAt dft r i = (cellAt df r i).bind (fun v => (castCategory v).toOption)) := by
  have hcell := runSteps_cell type_steps df dft h5 i c hci r
  refine ⟨?_, ?_, ?_, ?_, ?_⟩
  · rw [get_cleaned_df_success env files f rest lines df h1 h2 h3 h4, h5]
  · intro hm
    rw [hcell]
    simp only [columnCast_datetime_col c hm]
  · intro hm
    rw [hcell]
    simp only [columnCast_int_feature c hm]
  · intro hm
    rw [hcell]
    simp only [columnCast_float_feature c hm]
  · intro hm
    subst hm
    rw [hcell]
    simp only [columnCast_flag]

/-- C8 (witness): in the loaded synthetic table, the source string
`2024-01-05 10:15:00` in `tpep_pickup_datetime` became exactly that
timestamp, and the source string `1` in `VendorID` became the integer
1, each equal to the source cell after coercion. -/
theorem c8_witness :
    (cellAt sample_typed 0 1 =
      (cellAt sample_df 0 1).bind (fun v => (castDatetime v).toOption)) ∧
    cellAt sample_typed 0 1 = some (.timestamp ⟨2024, 1, 5, 10, 15, 0⟩) ∧
    (cellAt sample_typed 0 0 =
      (cellAt sample_df 0 0).bind (fun v => (castInt64 v).toOption)) ∧
    cellAt sample_typed 0 0 = some (.int 1) := by
  refine ⟨?_, by decide, ?_, by decide⟩
  · exact (c8_roundtrip env_good [good_name, "readme.txt"] good_name []
      sample_lines sample_df sample_typed 1 "tpep_pickup_datetime" 0
      rfl (by decide) rfl rfl (by decide) (by decide)).2.1 (by decide)
  · exact (c8_roundtrip env_good [good_name, "readme.txt"] good_name []
      sample_lines sample_df sample_typed 0 "VendorID" 0
      rfl (by decide) rfl rfl (by decide) (by decide)).2.2.1 (by decide)

/-- C9: the candidate set is exactly the directory entries that end in
the literal string `_cleaned.csv`; names differing in case or carrying
the suffix elsewhere than at the end are excluded. -/
theorem c9_candidate_set :
    (∀ (files : List String) (f : String),
      f ∈ files.filter (fun g => endswith g "_cleaned.csv") ↔
        f ∈ files ∧ ∃ p : String, f = p ++ "_cleaned.csv") ∧
    ["trips_Cleaned.CSV"].filter (fun g => endswith g "_cleaned.csv") = [] ∧
    ["trips_cleaned.csv.bak"].filter (fun g => endswith g "_cleaned.csv") = [] := by
  refine ⟨?_, by decide, by decide⟩
  intro files f
  simp only [List.mem_filter, endswith_iff]

/-- C9 (witness): the characterisation applied to a concrete matching
name. -/
theorem c9_witness :
    "x_cleaned.csv" ∈ ["x_cleaned.csv"] ∧
    ∃ p : String, "x_cleaned.csv" = p ++ "_cleaned.csv" :=
  (c9_candidate_set.1 ["x_cleaned.csv"] "x_cleaned.csv").mp (by decide)

/-- C10: no exception raised inside the try block escapes as itself:
each failure is printed, and when it struck before `df` was first
assigned (listing failure, no matching file, or a read/parse failure)
the final `return df` raises `UnboundLocalError`, while a `_set_types`
failure (after `df` was assigned) still returns the mutated table. -/
theorem c10_exceptions_caught_and_printed (env : Env) :
    (∀ e, env.listing = .error e →
      get_cleaned_df env = ([error_msg e], .unboundLocalError)) ∧
    (∀ files, env.listing = .ok files →
      files.filter (fun g => endswith g "_cleaned.csv") = [] →
      get_cleaned_df env = ([error_msg not_found_msg], .unboundLocalError)) ∧
    (∀ files f rest e, env.listing = .ok files →
      files.filter (fun g => endswith g "_cleaned.csv") = f :: rest →
      env.file (dataset_dir ++ "/" ++ f) = .error e →
      get_cleaned_df env =
        ([loading_msg (dataset_dir ++ "/" ++ f), error_msg e],
          .unboundLocalError)) ∧
    (∀ files f rest lines e, env.listing = .ok files →
      files.filter (fun g => endswith g "_cleaned.csv") = f :: rest →
      env.file (dataset_dir ++ "/" ++ f) = .ok lines →
      read_csv lines = .error e →
      get_cleaned_df env =
        ([loading_msg (dataset_dir ++ "/" ++ f), error_msg e],
          .unboundLocalError)) ∧
    (∀ files f rest lines df dfp e, env.listing = .ok files →
      files.filter (fun g => endswith g "_cleaned.csv") = f :: rest →
      env.file (dataset_dir ++ "/" ++ f) = .ok lines →
      read_csv lines = .ok df →
      set_types df = (dfp, some e) →
      get_cleaned_df env =
        ([loading_msg (dataset_dir ++ "/" ++ f), success_msg df.rows.length,
          error_msg e], .table dfp)) := by
  refine ⟨?_, ?_, ?_, ?_, ?_⟩
  · intro e h1
    unfold get_cleaned_df
    rw [h1]
  · intro files h1 h2
    unfold get_cleaned_df
    rw [h1]
    dsimp only
    rw [h2]
  · intro files f rest e h1 h2 h3
    unfold get_cleaned_df
    rw [h1]
    dsimp only
    rw [h2]
    dsimp only
    rw [h3]
  · intro files f rest lines e h1 h2 h3 h4
    unfold get_cleaned_df
    rw [h1]
    dsimp only
    rw [h2]
    dsimp only
    rw [h3]
    dsimp only
    rw [h4]
  · intro files f rest lines df dfp e h1 h2 h3 h4 h5
    rw [get_cleaned_df_success env files f rest lines df h1 h2 h3 h4, h5]

/-- C10 (witness): a failing directory listing is printed and the call
ends in `UnboundLocalError`. -/
theorem c10_witness :
    get_cleaned_df env_err = ([error_msg "PermissionError"], .unboundLocalError) :=
  (c10_exceptions_caught_and_printed env_err).1 "PermissionError" rfl

end Dpp
